import Mathlib

/-!
# SyncScript backend — shallow embedding

A shallow embedding of the SyncScript v2.0 backend server
(`backend/server.js`, also reproduced verbatim in `debug_repro.js`):
an Express + Prisma + Redis + Socket.IO REST API for collaborative
research vaults.

The embedding models:
* the relational data model (User, Vault, VaultMember, Source, AuditLog)
  as lists of records inside a `Db` structure;
* the Redis cache as an association list from key strings to values with
  their TTLs, guarded by a `redisReady` flag (handlers skip the cache
  when Redis is down, exactly as the `redisClient.isReady` checks do);
* JWT verification as a token table in the server state
  (`jwt.verify` succeeds exactly on the tokens in the table);
* `bcrypt.compare` / `bcrypt.hash` / `jwt.sign` as opaque function
  parameters of the endpoints that use them;
* `prisma.$transaction` all-or-nothing semantics through an explicit
  success/failure oracle parameter: on failure no write persists and the
  handler's `catch` branch answers 500, on success all writes persist;
* each HTTP route handler as a pure function from the request and the
  server state to a response, the new server state, and the trace of
  database operations performed.

Field names, key strings, TTLs, status codes and error messages are
taken verbatim from the source.
-/

deriving instance DecidableEq for Except

namespace SyncScript

/-! ## JavaScript string primitives used by the handlers -/

/-- The JS whitespace class, as stripped by `String.prototype.trim` and
matched by `/\s/`: tab, LF, VT, FF, CR, space, NBSP, the Ogham space
mark, the U+2000–U+200A spaces, LS, PS, the narrow no-break space, the
medium mathematical space, the ideographic space, and the BOM. -/
def isWs (c : Char) : Bool :=
  c = ' ' || c = '\t' || c = '\n' || c = '\r' ||
  c = '\u000B' || c = '\u000C' || c = '\u00A0' || c = '\u1680' ||
  ('\u2000' ≤ c && c ≤ '\u200A') ||
  c = '\u2028' || c = '\u2029' || c = '\u202F' ||
  c = '\u205F' || c = '\u3000' || c = '\uFEFF'

/-- JS `String.prototype.trim`. -/
def jsTrim (s : String) : String :=
  String.mk (((s.toList.dropWhile isWs).reverse.dropWhile isWs).reverse)

/-- JS truthiness of an optional string field of a JSON body:
`undefined`/absent and the empty string are falsy. -/
def truthy : Option String → Bool
  | none => false
  | some s => !(s == "")

/-- JS `String.prototype.split(sep)` for a one-character separator
(used by `authHeader.split(' ')`). -/
def splitChar (sep : Char) : List Char → List (List Char)
  | [] => [[]]
  | c :: cs =>
    let r := splitChar sep cs
    if c = sep then [] :: r
    else
      match r with
      | [] => [[c]]
      | x :: xs => (c :: x) :: xs

/-- The bearer token extracted by `authHeader && authHeader.split(' ')[1]`;
`none` models every falsy outcome (no header, no second component, or an
empty second component). -/
def tokenOf : Option String → Option String
  | none => none
  | some h =>
    match (splitChar ' ' h.toList)[1]? with
    | none => none
    | some [] => none
    | some cs => some (String.mk cs)

/-- JS `String.prototype.startsWith`. -/
def jsStartsWith (p s : String) : Bool :=
  p.toList.isPrefixOf s.toList

/-- JS `originalname.replace(/\s+/g, '_')`: each maximal whitespace run
becomes a single underscore.  The flag records whether the previous
character was part of a run. -/
def replWs : Bool → List Char → List Char
  | _, [] => []
  | prevWs, c :: cs =>
    if isWs c then
      if prevWs then replWs true cs else '_' :: replWs true cs
    else c :: replWs false cs

/-! ## Sorting (model of Prisma `orderBy: ... 'desc'`) -/

/-- Insert into a list that is sorted by `key` in descending order. -/
def insertDescBy (key : α → Nat) (x : α) : List α → List α
  | [] => [x]
  | a :: as_ =>
    if key x ≤ key a then a :: insertDescBy key x as_
    else x :: a :: as_

/-- Sort by `key` in descending order (model of Prisma
`orderBy: { field: 'desc' }`). -/
def sortDescBy (key : α → Nat) : List α → List α
  | [] => []
  | x :: xs => insertDescBy key x (sortDescBy key xs)

/-! ## Data model -/

/-- The payload `jwt.sign` puts in a token and `jwt.verify` returns:
`req.user = { id, email, name }`. -/
structure AuthUser where
  id : Nat
  email : String
  name : String
deriving Repr, DecidableEq

/-- A row of the `User` table. -/
structure User where
  id : Nat
  email : String
  password : String
  name : String
deriving Repr, DecidableEq

/-- A row of the `Vault` table. -/
structure Vault where
  id : Nat
  name : String
  ownerId : Nat
  createdAt : Nat
deriving Repr, DecidableEq

/-- A row of the `VaultMember` table. -/
structure VaultMember where
  vaultId : Nat
  userId : Nat
  role : String
deriving Repr, DecidableEq

/-- A row of the `Source` table. -/
structure Source where
  id : Nat
  vaultId : Nat
  type : String
  title : String
  content : String
  mimeType : Option String
  size : Option Nat
  url : Option String
  addedBy : Nat
  addedAt : Nat
deriving Repr, DecidableEq

/-- A row of the `AuditLog` table. -/
structure AuditLog where
  id : Nat
  vaultId : Nat
  userId : Nat
  action : String
  resourceType : Option String
  resourceId : Option Nat
  metadata : Option String
  createdAt : Nat
deriving Repr, DecidableEq

/-- The PostgreSQL database reached through Prisma.  `nextId` models the
autoincrement id sequence. -/
structure Db where
  users : List User
  vaults : List Vault
  vaultMembers : List VaultMember
  sources : List Source
  auditLogs : List AuditLog
  nextId : Nat
deriving Repr, DecidableEq

/-- The vault objects `GET /vaults` serves and caches. -/
structure VaultRow where
  id : Nat
  name : String
  role : String
  createdAt : Nat
deriving Repr, DecidableEq

/-- The source objects `GET /vaults/:id/sources` serves and caches. -/
structure SourceRow where
  id : Nat
  vaultId : Nat
  type : String
  title : String
  content : Option String
  mimeType : Option String
  size : Option Nat
  addedBy : String
  addedAt : Nat
  url : Option String
deriving Repr, DecidableEq

/-- The audit-log objects `GET /vaults/:id/audit` serves. -/
structure AuditRow where
  id : Nat
  action : String
  user : String
  resourceType : Option String
  resourceId : Option Nat
  metadata : Option String
  createdAt : Nat
deriving Repr, DecidableEq

/-- A JSON value stored in Redis (the handlers only ever store the
serialized vault list and the serialized source list). -/
inductive CacheVal where
  | vaultList (rows : List VaultRow)
  | sourceList (rows : List SourceRow)
deriving Repr, DecidableEq

/-- The Redis cache: key, value, TTL in seconds (the `EX` argument). -/
abbrev Cache := List (String × CacheVal × Nat)

def cacheGet (c : Cache) (k : String) : Option CacheVal :=
  (c.find? (fun e => e.1 == k)).map (fun e => e.2.1)

/-- The TTL stored with a key (to state the `EX` values of the two
read-through endpoints). -/
def cacheTTL (c : Cache) (k : String) : Option Nat :=
  (c.find? (fun e => e.1 == k)).map (fun e => e.2.2)

def cacheSet (c : Cache) (k : String) (v : CacheVal) (ex : Nat) : Cache :=
  (k, v, ex) :: c.filter (fun e => !(e.1 == k))

def cacheDel (c : Cache) (k : String) : Cache :=
  c.filter (fun e => !(e.1 == k))

/-- Key of the `GET /vaults` cache: `vaults:user:<userId>`. -/
def vaultsUserKey (userId : Nat) : String :=
  "vaults:user:" ++ toString userId

/-- Key of the `GET /vaults/:id/sources` cache: `vault:<vaultId>:sources`. -/
def vaultSourcesKey (vaultId : Nat) : String :=
  "vault:" ++ toString vaultId ++ ":sources"

/-- The whole server state: database, Redis cache and availability flag,
the set of valid JWTs with their payloads, the files present under
`uploads/`, and the current clock (`Date.now`, also the timestamp Prisma
stamps on created rows). -/
structure ServerState where
  db : Db
  cache : Cache
  redisReady : Bool
  tokens : List (String × AuthUser)
  files : List String
  now : Nat
deriving DecidableEq

/-! ## Responses -/

/-- An error response: HTTP status, the optional `success` field of the
JSON body (`none` when the body has no `success` field at all), and the
`error` message. -/
structure ErrR where
  status : Nat
  success : Option Bool
  error : String
deriving Repr, DecidableEq

/-- A response of a route handler.  `ok` carries the HTTP status, the
`data` payload and the `_cached` flag; `redirect` and `download` model
`res.redirect` and `res.download` of the file endpoint. -/
inductive Resp (α : Type) where
  | ok (status : Nat) (data : α) (cached : Bool)
  | err (e : ErrR)
  | redirect (location : String)
  | download (path : String) (title : String)
deriving Repr, DecidableEq

/-- A database operation performed by a handler (a Prisma call). -/
inductive DbOp where
  | read
  | write
deriving Repr, DecidableEq

/-- What running one route on one request yields: the response, the new
server state, and the trace of database operations performed. -/
abbrev EndpointResult (α : Type) :=
  Resp α × ServerState × List DbOp

/-! ## Middleware -/

/-- `authenticateToken`: extract the bearer token, 401 when absent,
verify it (403 on failure), otherwise produce `req.user`. -/
def authenticate (s : ServerState) (authHeader : Option String) :
    Except ErrR AuthUser :=
  match tokenOf authHeader with
  | none => .error ⟨401, some false, "Authentication required"⟩
  | some t =>
    match s.tokens.find? (fun e => e.1 == t) with
    | none => .error ⟨403, some false, "Invalid or expired token"⟩
    | some e => .ok e.2

/-- The single `vaultMember.findFirst` lookup of the RBAC middleware. -/
def findMembership (db : Db) (vaultId userId : Nat) : Option VaultMember :=
  db.vaultMembers.find? (fun m => m.vaultId == vaultId && m.userId == userId)

/-- `requireVaultRole(allowedRoles)`: one membership lookup, 403 when the
row is missing, 403 when its role is not allowed, otherwise the role. -/
def requireVaultRole (allowedRoles : List String) (vaultId userId : Nat)
    (db : Db) : Except ErrR String :=
  match findMembership db vaultId userId with
  | none => .error ⟨403, some false, "You do not have access to this vault"⟩
  | some m =>
    if allowedRoles.contains m.role then .ok m.role
    else
      .error ⟨403, some false,
        "This action requires one of these roles: " ++
          String.intercalate ", " allowedRoles⟩

/-- Run a handler behind `authenticateToken`: an authentication error is
answered directly, without touching the database or the state. -/
def withAuth (s : ServerState) (authHeader : Option String)
    (k : AuthUser → EndpointResult α) : EndpointResult α :=
  match authenticate s authHeader with
  | .error e => (.err e, s, [])
  | .ok u => k u

/-- Run a handler behind `requireVaultRole(allowedRoles)`: the middleware
performs its one lookup; on error the handler never runs. -/
def withVaultRole (allowedRoles : List String) (vaultId : Nat)
    (u : AuthUser) (s : ServerState)
    (k : String → EndpointResult α) : EndpointResult α :=
  match requireVaultRole allowedRoles vaultId u.id s.db with
  | .error e => (.err e, s, [.read])
  | .ok role => ((k role).1, (k role).2.1, .read :: (k role).2.2)

/-! ## Authentication endpoints -/

/-- `POST /auth/register`.  `hashFn` models `bcrypt.hash`, `sign` models
`jwt.sign` on the `{ id, email, name }` payload. -/
def postAuthRegister (hashFn : String → String) (sign : AuthUser → String)
    (email password name : Option String) (s : ServerState) :
    EndpointResult (AuthUser × String) :=
  if !truthy email || !truthy password || !truthy name then
    (.err ⟨400, some false, "Email, password, and name are required"⟩, s, [])
  else if (password.getD "").length < 6 then
    (.err ⟨400, some false, "Password must be at least 6 characters"⟩, s, [])
  else
    match s.db.users.find? (fun uu => uu.email == email.getD "") with
    | some _ =>
      (.err ⟨409, some false, "User with this email already exists"⟩, s, [.read])
    | none =>
      let uid := s.db.nextId
      let user : User :=
        ⟨uid, email.getD "", hashFn (password.getD ""), name.getD ""⟩
      let au : AuthUser := ⟨uid, user.email, user.name⟩
      (.ok 201 (au, sign au) false,
        { s with db := { s.db with
            users := s.db.users ++ [user], nextId := uid + 1 } },
        [.read, .write])

/-- `POST /auth/login`.  `check` models `bcrypt.compare (password, hash)`,
`sign` models `jwt.sign`. -/
def postAuthLogin (check : String → String → Bool) (sign : AuthUser → String)
    (email password : Option String) (s : ServerState) :
    EndpointResult (AuthUser × String) :=
  if !truthy email || !truthy password then
    (.err ⟨400, some false, "Email and password are required"⟩, s, [])
  else
    match s.db.users.find? (fun uu => uu.email == email.getD "") with
    | none =>
      (.err ⟨401, some false, "Invalid email or password"⟩, s, [.read])
    | some user =>
      if check (password.getD "") user.password then
        (.ok 200 (⟨user.id, user.email, user.name⟩, sign ⟨user.id, user.email, user.name⟩) false,
          s, [.read])
      else
        (.err ⟨401, some false, "Invalid email or password"⟩, s, [.read])

/-! ## Vault endpoints -/

/-- The vault list `GET /vaults` computes from the database on a cache
miss: the user's memberships joined with their vaults
(`vaultMember.findMany` with `include: { vault: true }`). -/
def freshVaultRows (db : Db) (userId : Nat) : List VaultRow :=
  (db.vaultMembers.filter (fun m => m.userId == userId)).filterMap
    (fun m =>
      (db.vaults.find? (fun v => v.id == m.vaultId)).map
        (fun v => ⟨v.id, v.name, m.role, v.createdAt⟩))

/-- The handler of `GET /vaults` (after `authenticateToken`):
read-through cache under `vaults:user:<userId>` with `EX: 300`. -/
def getVaultsHandler (u : AuthUser) (s : ServerState) :
    EndpointResult CacheVal :=
  let key := vaultsUserKey u.id
  match (if s.redisReady then cacheGet s.cache key else none) with
  | some v => (.ok 200 v true, s, [])
  | none =>
    let rows := freshVaultRows s.db u.id
    let cache' :=
      if s.redisReady then cacheSet s.cache key (.vaultList rows) 300
      else s.cache
    (.ok 200 (.vaultList rows) false, { s with cache := cache' }, [.read])

/-- `GET /vaults`. -/
def getVaultsEndpoint (authHeader : Option String) (s : ServerState) :
    EndpointResult CacheVal :=
  withAuth s authHeader fun u => getVaultsHandler u s

/-- The handler of `POST /vaults` (after `authenticateToken`): validate
the name, then create the vault, the creator's OWNER membership and the
audit-log row in one `prisma.$transaction` (`txOk` is the transaction's
success oracle: on `false` no write persists and the `catch` answers
500), then invalidate the creator's vault-list cache key. -/
def postVaultsHandler (txOk : Bool) (u : AuthUser) (name : Option String)
    (s : ServerState) : EndpointResult VaultRow :=
  if name = none ∨ jsTrim (name.getD "") = "" then
    (.err ⟨400, some false, "Vault name is required"⟩, s, [])
  else if txOk then
    let nm := jsTrim (name.getD "")
    let vid := s.db.nextId
    let db' : Db :=
      { s.db with
        vaults := s.db.vaults ++ [⟨vid, nm, u.id, s.now⟩]
        vaultMembers := s.db.vaultMembers ++ [⟨vid, u.id, "OWNER"⟩]
        auditLogs := s.db.auditLogs ++
          [⟨s.db.nextId + 1, vid, u.id, "VAULT_CREATED",
            some "vault", some vid, none, s.now⟩]
        nextId := s.db.nextId + 2 }
    let cache' :=
      if s.redisReady then cacheDel s.cache (vaultsUserKey u.id)
      else s.cache
    (.ok 201 ⟨vid, nm, "OWNER", s.now⟩ false,
      { s with db := db', cache := cache' },
      [.write, .write, .write])
  else
    (.err ⟨500, some false, "Failed to create vault"⟩, s, [.write])

/-- `POST /vaults`. -/
def postVaultsEndpoint (txOk : Bool) (authHeader : Option String)
    (name : Option String) (s : ServerState) : EndpointResult VaultRow :=
  withAuth s authHeader fun u => postVaultsHandler txOk u name s

/-! ## Source endpoints -/

/-- The source list `GET /vaults/:id/sources` computes from the database
on a cache miss: the vault's sources ordered by `addedAt` descending,
joined with their creators. -/
def freshSourceRows (db : Db) (vaultId : Nat) : List SourceRow :=
  (sortDescBy Source.addedAt
      (db.sources.filter (fun x => x.vaultId == vaultId))).map
    (fun x =>
      { id := x.id, vaultId := x.vaultId, type := x.type, title := x.title
        content := if x.content ≠ "" then some x.content else x.url
        mimeType := x.mimeType, size := x.size
        addedBy := ((db.users.find? (fun uu => uu.id == x.addedBy)).map
          User.name).getD ""
        addedAt := x.addedAt, url := x.url })

/-- The handler of `GET /vaults/:id/sources` (after the middleware):
read-through cache under `vault:<vaultId>:sources` with `EX: 60`. -/
def getVaultSourcesHandler (vaultId : Nat) (s : ServerState) :
    EndpointResult CacheVal :=
  let key := vaultSourcesKey vaultId
  match (if s.redisReady then cacheGet s.cache key else none) with
  | some v => (.ok 200 v true, s, [])
  | none =>
    let rows := freshSourceRows s.db vaultId
    let cache' :=
      if s.redisReady then cacheSet s.cache key (.sourceList rows) 60
      else s.cache
    (.ok 200 (.sourceList rows) false, { s with cache := cache' }, [.read])

/-- `GET /vaults/:id/sources`: `authenticateToken`, then
`requireVaultRole(['OWNER', 'CONTRIBUTOR', 'VIEWER'])`. -/
def getVaultSourcesEndpoint (authHeader : Option String) (vaultId : Nat)
    (s : ServerState) : EndpointResult CacheVal :=
  withAuth s authHeader fun u =>
    withVaultRole ["OWNER", "CONTRIBUTOR", "VIEWER"] vaultId u s fun _ =>
      getVaultSourcesHandler vaultId s

/-- The `req.file` object multer produces for an uploaded file. -/
structure FileInfo where
  originalname : String
  mimetype : String
  size : Nat
deriving Repr, DecidableEq

/-- The body of a `POST /vaults/:id/sources` request (multipart text
fields plus the optional file). -/
structure AddSourceReq where
  title : Option String
  url : Option String
  type : Option String
  content : Option String
  file : Option FileInfo
deriving Repr, DecidableEq

/-- The transaction of `POST /vaults/:id/sources`: create the source row
and the audit-log row, invalidate the vault's sources cache key, answer
201.  `txFail = some m` makes the transaction fail with message `m`
(nothing persists, the `catch` answers
`500 'Failed to add source: ' + m`). -/
def addSourceTx (txFail : Option String) (u : AuthUser) (vaultId : Nat)
    (sourceType title sourceContent : String) (mime : Option String)
    (sz : Option Nat) (s : ServerState) : EndpointResult SourceRow :=
  match txFail with
  | some m =>
    (.err ⟨500, some false, "Failed to add source: " ++ m⟩, s, [.write])
  | none =>
    let sid := s.db.nextId
    let urlField : Option String :=
      if sourceType = "url" ∨ sourceType = "media" then some sourceContent
      else none
    let src : Source :=
      ⟨sid, vaultId, sourceType, title, sourceContent, mime, sz,
        urlField, u.id, s.now⟩
    let db' : Db :=
      { s.db with
        sources := s.db.sources ++ [src]
        auditLogs := s.db.auditLogs ++
          [⟨s.db.nextId + 1, vaultId, u.id, "SOURCE_ADDED",
            some "source", some sid,
            some ("\x7b\"title\":\"" ++ title ++ "\",\"type\":\"" ++
              sourceType ++ "\"\x7d"), s.now⟩]
        nextId := s.db.nextId + 2 }
    let cache' :=
      if s.redisReady then cacheDel s.cache (vaultSourcesKey vaultId)
      else s.cache
    (.ok 201
      { id := sid, vaultId := vaultId, type := sourceType, title := title
        content := if sourceContent ≠ "" then some sourceContent else urlField
        mimeType := mime, size := sz
        addedBy := ((s.db.users.find? (fun uu => uu.id == u.id)).map
          User.name).getD ""
        addedAt := s.now, url := urlField } false,
      { s with db := db', cache := cache' },
      [.write, .write])

/-- The handler of `POST /vaults/:id/sources` (after the middleware):
validate the title, branch on the source type (`file`/`image` need the
uploaded file, written to local storage when `fsOk`; `url`/`media` need
`content || url`; `note` needs `content`; anything else is invalid),
then run the transaction. -/
def postVaultSourcesHandler (txFail : Option String) (fsOk : Bool)
    (u : AuthUser) (vaultId : Nat) (r : AddSourceReq) (s : ServerState) :
    EndpointResult SourceRow :=
  if r.title = none ∨ jsTrim (r.title.getD "") = "" then
    (.err ⟨400, some false, "Source title is required"⟩, s, [])
  else
    let title := jsTrim (r.title.getD "")
    let sourceType := if truthy r.type then r.type.getD "" else "url"
    if sourceType = "file" ∨ sourceType = "image" then
      match r.file with
      | none => (.err ⟨400, some false, "File is required"⟩, s, [])
      | some f =>
        if fsOk then
          let filename :=
            toString s.now ++ "-" ++
              String.mk (replWs false f.originalname.toList)
          addSourceTx txFail u vaultId sourceType title
            ("/uploads/" ++ filename) (some f.mimetype) (some f.size) s
        else
          (.err ⟨500, some false, "Failed to save file locally"⟩, s, [])
    else if sourceType = "url" ∨ sourceType = "media" then
      let c := if truthy r.content then r.content.getD "" else r.url.getD ""
      if c = "" then
        (.err ⟨400, some false, "URL is required"⟩, s, [])
      else
        addSourceTx txFail u vaultId sourceType title c none none s
    else if sourceType = "note" then
      let c := r.content.getD ""
      if c = "" then
        (.err ⟨400, some false, "Note content is required"⟩, s, [])
      else
        addSourceTx txFail u vaultId sourceType title c none none s
    else
      (.err ⟨400, some false, "Invalid source type"⟩, s, [])

/-- `POST /vaults/:id/sources`: `authenticateToken`, then
`requireVaultRole(['OWNER', 'CONTRIBUTOR'])`. -/
def postVaultSourcesEndpoint (txFail : Option String) (fsOk : Bool)
    (authHeader : Option String) (vaultId : Nat) (r : AddSourceReq)
    (s : ServerState) : EndpointResult SourceRow :=
  withAuth s authHeader fun u =>
    withVaultRole ["OWNER", "CONTRIBUTOR"] vaultId u s fun _ =>
      postVaultSourcesHandler txFail fsOk u vaultId r s

/-! ## Member endpoint -/

/-- The handler of `POST /vaults/:id/members` (after the middleware):
validate the body, 400 for a role outside {CONTRIBUTOR, VIEWER}, 404
when no user has the email, 409 when the user is already a member,
otherwise create the membership and audit rows in one transaction
(`txOk` oracle) and invalidate the added user's vault-list cache key. -/
def postVaultMembersHandler (txOk : Bool) (reqUser : AuthUser)
    (vaultId : Nat) (email role : Option String) (s : ServerState) :
    EndpointResult String :=
  if !truthy email || !truthy role then
    (.err ⟨400, some false, "Email and role are required"⟩, s, [])
  else if !(["CONTRIBUTOR", "VIEWER"].contains (role.getD "")) then
    (.err ⟨400, some false, "Invalid role. Use CONTRIBUTOR or VIEWER"⟩, s, [])
  else
    match s.db.users.find? (fun uu => uu.email == email.getD "") with
    | none => (.err ⟨404, some false, "User not found"⟩, s, [.read])
    | some userToAdd =>
      match findMembership s.db vaultId userToAdd.id with
      | some _ =>
        (.err ⟨409, some false, "User is already a member of this vault"⟩,
          s, [.read, .read])
      | none =>
        if txOk then
          let db' : Db :=
            { s.db with
              vaultMembers := s.db.vaultMembers ++
                [⟨vaultId, userToAdd.id, role.getD ""⟩]
              auditLogs := s.db.auditLogs ++
                [⟨s.db.nextId, vaultId, reqUser.id, "MEMBER_ADDED",
                  some "user", some userToAdd.id,
                  some ("\x7b\"email\":\"" ++ email.getD "" ++
                    "\",\"role\":\"" ++ role.getD "" ++ "\"\x7d"), s.now⟩]
              nextId := s.db.nextId + 1 }
          let cache' :=
            if s.redisReady then
              cacheDel s.cache (vaultsUserKey userToAdd.id)
            else s.cache
          (.ok 201 ("User " ++ email.getD "" ++ " added as " ++ role.getD "")
              false,
            { s with db := db', cache := cache' },
            [.read, .read, .read, .write, .write])
        else
          (.err ⟨500, some false, "Failed to add member"⟩, s,
            [.read, .read, .read, .write])

/-- `POST /vaults/:id/members`: `authenticateToken`, then
`requireVaultRole(['OWNER'])`. -/
def postVaultMembersEndpoint (txOk : Bool) (authHeader : Option String)
    (vaultId : Nat) (email role : Option String) (s : ServerState) :
    EndpointResult String :=
  withAuth s authHeader fun u =>
    withVaultRole ["OWNER"] vaultId u s fun _ =>
      postVaultMembersHandler txOk u vaultId email role s

/-! ## Download endpoint -/

/-- The handler of `GET /sources/:id/download` (after
`authenticateToken`).  Note: unlike every other route, its error bodies
are written `res.status(...).json({ error: ... })` with no `success`
field, hence `success := none` here. -/
def getSourceDownloadHandler (u : AuthUser) (sourceId : Nat)
    (s : ServerState) : EndpointResult Unit :=
  match s.db.sources.find? (fun x => x.id == sourceId) with
  | none => (.err ⟨404, none, "Source not found"⟩, s, [.read])
  | some src =>
    match findMembership s.db src.vaultId u.id with
    | none => (.err ⟨403, none, "Access denied"⟩, s, [.read, .read])
    | some _ =>
      if src.type ≠ "file" ∧ src.type ≠ "image" then
        (.err ⟨400, none, "Source is not a file"⟩, s, [.read, .read])
      else if jsStartsWith "http" src.content then
        (.redirect src.content, s, [.read, .read])
      else
        let rel :=
          if jsStartsWith "/" src.content then src.content.drop 1
          else src.content
        if s.files.contains rel then
          (.download rel src.title, s, [.read, .read])
        else
          (.err ⟨404, none, "File not found on server"⟩, s, [.read, .read])

/-- `GET /sources/:id/download`. -/
def getSourceDownloadEndpoint (authHeader : Option String)
    (sourceId : Nat) (s : ServerState) : EndpointResult Unit :=
  withAuth s authHeader fun u => getSourceDownloadHandler u sourceId s

/-! ## Audit endpoint -/

/-- The audit rows `GET /vaults/:id/audit` serves: the vault's audit-log
rows ordered by `createdAt` descending, limited to 100 (`take: 100`),
joined with their users. -/
def freshAuditRows (db : Db) (vaultId : Nat) : List AuditRow :=
  ((sortDescBy AuditLog.createdAt
      (db.auditLogs.filter (fun l => l.vaultId == vaultId))).take 100).map
    (fun l =>
      ⟨l.id, l.action,
        ((db.users.find? (fun uu => uu.id == l.userId)).map User.name).getD "",
        l.resourceType, l.resourceId, l.metadata, l.createdAt⟩)

/-- `GET /vaults/:id/audit`: `authenticateToken`, then
`requireVaultRole(['OWNER'])`. -/
def getVaultAuditEndpoint (authHeader : Option String) (vaultId : Nat)
    (s : ServerState) : EndpointResult (List AuditRow) :=
  withAuth s authHeader fun u =>
    withVaultRole ["OWNER"] vaultId u s fun _ =>
      (.ok 200 (freshAuditRows s.db vaultId) false, s, [.read])

/-! ## A concrete world (used by the witnesses) -/

/-- Token payload of the first registered user. -/
def aliceAuth : AuthUser := ⟨1, "alice@example.com", "Alice"⟩

/-- Token payload of the second registered user. -/
def bobAuth : AuthUser := ⟨2, "bob@example.com", "Bob"⟩

/-- Token payload of the third registered user. -/
def carolAuth : AuthUser := ⟨3, "carol@example.com", "Carol"⟩

/-- A small database: Alice owns vault 10, Bob views it, Carol is not a
member. -/
def db0 : Db :=
  { users :=
      [⟨1, "alice@example.com", "hash-a", "Alice"⟩,
       ⟨2, "bob@example.com", "hash-b", "Bob"⟩,
       ⟨3, "carol@example.com", "hash-c", "Carol"⟩]
    vaults := [⟨10, "Research", 1, 0⟩]
    vaultMembers := [⟨10, 1, "OWNER"⟩, ⟨10, 2, "VIEWER"⟩]
    sources := [⟨20, 10, "note", "Note A", "text", none, none, none, 1, 3⟩]
    auditLogs :=
      [⟨30, 10, 1, "VAULT_CREATED", some "vault", some 10, none, 0⟩,
       ⟨31, 10, 1, "SOURCE_ADDED", some "source", some 20, some "{}", 3⟩]
    nextId := 100 }

/-- A server state over `db0` with Redis up, an empty cache, and one
valid token per user. -/
def s0 : ServerState :=
  { db := db0, cache := [], redisReady := true
    tokens := [("tokA", aliceAuth), ("tokB", bobAuth), ("tokC", carolAuth)]
    files := [], now := 9 }

/-- Alice's `Authorization` header. -/
def hdrA : Option String := some "Bearer tokA"

/-- Bob's `Authorization` header. -/
def hdrB : Option String := some "Bearer tokB"

/-- Carol's `Authorization` header. -/
def hdrC : Option String := some "Bearer tokC"

/-- A `note` body for `POST /vaults/:id/sources`. -/
def noteReq : AddSourceReq :=
  { title := some "My note", url := none, type := some "note"
    content := some "hello", file := none }

/-! ## Claim theorems -/

/-- The 401 body `authenticateToken` sends when the request carries no
bearer token. -/
def authRequired : ErrR := ⟨401, some false, "Authentication required"⟩

/-- C4: a request guarded by `requireVaultRole(allowedRoles)` reaches the
route handler iff the single `(vaultId, userId)` membership lookup finds
a row whose role is in `allowedRoles`; otherwise the middleware answers
403 (missing row, or role not allowed) and the handler never runs — the
result is independent of the handler and its trace is exactly one read. -/
theorem requireVaultRole_gate :
    ∀ (roles : List String) (vaultId : Nat) (u : AuthUser)
      (s : ServerState) (α : Type) (k : String → EndpointResult α),
    (findMembership s.db vaultId u.id = none →
      withVaultRole roles vaultId u s k =
        (.err ⟨403, some false, "You do not have access to this vault"⟩,
          s, [.read])) ∧
    (∀ m, findMembership s.db vaultId u.id = some m →
      m.role ∉ roles →
      withVaultRole roles vaultId u s k =
        (.err ⟨403, some false,
            "This action requires one of these roles: " ++
              String.intercalate ", " roles⟩,
          s, [.read])) ∧
    (∀ m, findMembership s.db vaultId u.id = some m →
      m.role ∈ roles →
      withVaultRole roles vaultId u s k =
        ((k m.role).1, (k m.role).2.1, .read :: (k m.role).2.2)) := by
  intro roles vaultId u s α k
  refine ⟨fun h => ?_, fun m hm hr => ?_, fun m hm hr => ?_⟩
  · simp [withVaultRole, requireVaultRole, h]
  · simp [withVaultRole, requireVaultRole, hm, hr]
  · simp [withVaultRole, requireVaultRole, hm, hr]

/-- Witness for C4: in the concrete world, Bob (a VIEWER of vault 10) is
stopped by `requireVaultRole(['OWNER', 'CONTRIBUTOR'])` with 403, for an
arbitrary concrete handler. -/
theorem requireVaultRole_gate_witness :
    withVaultRole ["OWNER", "CONTRIBUTOR"] 10 bobAuth s0
        (fun r => (.ok 200 r false, s0, [])) =
      (.err ⟨403, some false,
          "This action requires one of these roles: " ++
            String.intercalate ", " ["OWNER", "CONTRIBUTOR"]⟩,
        s0, [.read]) :=
  (requireVaultRole_gate ["OWNER", "CONTRIBUTOR"] 10 bobAuth s0 String
      (fun r => (.ok 200 r false, s0, []))).2.1
    ⟨10, 2, "VIEWER"⟩ (by decide) (by decide)

/-- C6: a request with no bearer token to any of `GET /vaults`,
`POST /vaults`, `GET /vaults/:id/sources`, `POST /vaults/:id/sources`,
`POST /vaults/:id/members`, `GET /vaults/:id/audit`, or
`GET /sources/:id/download` is answered
`401 {success:false, error:'Authentication required'}`, the state is
unchanged, and the database trace is empty. -/
theorem no_token_401_no_db :
    ∀ (hdr : Option String) (s : ServerState) (txOk fsOk : Bool)
      (txFail : Option String) (name email role : Option String)
      (vid sid : Nat) (r : AddSourceReq),
    tokenOf hdr = none →
    getVaultsEndpoint hdr s = (.err authRequired, s, []) ∧
    postVaultsEndpoint txOk hdr name s = (.err authRequired, s, []) ∧
    getVaultSourcesEndpoint hdr vid s = (.err authRequired, s, []) ∧
    postVaultSourcesEndpoint txFail fsOk hdr vid r s =
      (.err authRequired, s, []) ∧
    postVaultMembersEndpoint txOk hdr vid email role s =
      (.err authRequired, s, []) ∧
    getVaultAuditEndpoint hdr vid s = (.err authRequired, s, []) ∧
    getSourceDownloadEndpoint hdr sid s = (.err authRequired, s, []) := by
  intro hdr s txOk fsOk txFail name email role vid sid r h
  have hauth : authenticate s hdr = .error authRequired := by
    simp [authenticate, h, authRequired]
  refine ⟨?_, ?_, ?_, ?_, ?_, ?_, ?_⟩ <;>
    simp [getVaultsEndpoint, postVaultsEndpoint, getVaultSourcesEndpoint,
      postVaultSourcesEndpoint, postVaultMembersEndpoint,
      getVaultAuditEndpoint, getSourceDownloadEndpoint, withAuth, hauth]

/-- Witness for C6: a concrete tokenless request to each endpoint. -/
theorem no_token_401_no_db_witness :
    getVaultsEndpoint none s0 = (.err authRequired, s0, []) ∧
    postVaultsEndpoint true none (some "V") s0 =
      (.err authRequired, s0, []) ∧
    getVaultSourcesEndpoint none 10 s0 = (.err authRequired, s0, []) ∧
    postVaultSourcesEndpoint none true none 10 noteReq s0 =
      (.err authRequired, s0, []) ∧
    postVaultMembersEndpoint true none 10 (some "carol@example.com")
        (some "VIEWER") s0 =
      (.err authRequired, s0, []) ∧
    getVaultAuditEndpoint none 10 s0 = (.err authRequired, s0, []) ∧
    getSourceDownloadEndpoint none 20 s0 = (.err authRequired, s0, []) :=
  no_token_401_no_db none s0 true true none (some "V")
    (some "carol@example.com") (some "VIEWER") 10 20 noteReq rfl

/-- C5: `POST /vaults` with a missing, empty or whitespace-only name is
answered `400 {success:false, error:'Vault name is required'}` and
nothing changes (in particular no vault is created). -/
theorem postVaults_missing_name_400 :
    ∀ (txOk : Bool) (hdr name : Option String) (s : ServerState)
      (u : AuthUser),
    authenticate s hdr = .ok u →
    (name = none ∨ jsTrim (name.getD "") = "") →
    postVaultsEndpoint txOk hdr name s =
      (.err ⟨400, some false, "Vault name is required"⟩, s, []) := by
  intro txOk hdr name s u hauth hname
  simp [postVaultsEndpoint, withAuth, hauth, postVaultsHandler, hname]

/-- Witness for C5: Alice sends `POST /vaults` with the whitespace-only
name `"\u000B \u00A0"` (vertical tab, space, no-break space U+00A0 — all
stripped by JS `trim`) in the concrete world. -/
theorem postVaults_missing_name_400_witness :
    postVaultsEndpoint true hdrA (some "\u000B \u00A0") s0 =
      (.err ⟨400, some false, "Vault name is required"⟩, s0, []) :=
  postVaults_missing_name_400 true hdrA (some "\u000B \u00A0") s0 aliceAuth
    (by decide) (by decide)

/-- C1: an authenticated VIEWER of vault `vid` sending
`POST /vaults/:id/sources` is answered 403 and the vault's sources are
unchanged (the whole state is unchanged; the handler never runs). -/
theorem viewer_post_source_forbidden :
    ∀ (txFail : Option String) (fsOk : Bool) (hdr : Option String)
      (vid : Nat) (r : AddSourceReq) (s : ServerState) (u : AuthUser)
      (m : VaultMember),
    authenticate s hdr = .ok u →
    findMembership s.db vid u.id = some m →
    m.role = "VIEWER" →
    postVaultSourcesEndpoint txFail fsOk hdr vid r s =
      (.err ⟨403, some false,
          "This action requires one of these roles: OWNER, CONTRIBUTOR"⟩,
        s, [.read]) ∧
    (postVaultSourcesEndpoint txFail fsOk hdr vid r s).2.1.db.sources =
      s.db.sources := by
  intro txFail fsOk hdr vid r s u m hauth hm hrole
  have h : postVaultSourcesEndpoint txFail fsOk hdr vid r s =
      (.err ⟨403, some false,
          "This action requires one of these roles: OWNER, CONTRIBUTOR"⟩,
        s, [.read]) := by
    simp [postVaultSourcesEndpoint, withAuth, hauth, withVaultRole,
      requireVaultRole, hm, hrole, String.intercalate]
    rfl
  exact ⟨h, by rw [h]⟩

/-- Witness for C1: Bob (VIEWER of vault 10) posts a note source and is
answered 403; the sources of vault 10 are untouched. -/
theorem viewer_post_source_forbidden_witness :
    postVaultSourcesEndpoint none true hdrB 10 noteReq s0 =
      (.err ⟨403, some false,
          "This action requires one of these roles: OWNER, CONTRIBUTOR"⟩,
        s0, [.read]) ∧
    (postVaultSourcesEndpoint none true hdrB 10 noteReq s0).2.1.db.sources =
      s0.db.sources :=
  viewer_post_source_forbidden none true hdrB 10 noteReq s0 bobAuth
    ⟨10, 2, "VIEWER"⟩ (by decide) (by decide) (by decide)

/-- C2: with a valid token and a valid name, `POST /vaults` runs the
vault creation and the creation of the creator's OWNER membership in one
transaction: if the transaction succeeds the response is 201 and both
the Vault row and the OWNER VaultMember row are in the database; if any
statement of the transaction fails the response is the 500 of the
`catch` and the database is exactly the one before the request. -/
theorem postVaults_vault_and_owner_atomic :
    ∀ (txOk : Bool) (hdr name : Option String) (s : ServerState)
      (u : AuthUser),
    authenticate s hdr = .ok u →
    ¬ (name = none ∨ jsTrim (name.getD "") = "") →
    (txOk = true →
      (postVaultsEndpoint txOk hdr name s).1 =
        .ok 201 ⟨s.db.nextId, jsTrim (name.getD ""), "OWNER", s.now⟩ false ∧
      (⟨s.db.nextId, jsTrim (name.getD ""), u.id, s.now⟩ : Vault) ∈
        (postVaultsEndpoint txOk hdr name s).2.1.db.vaults ∧
      (⟨s.db.nextId, u.id, "OWNER"⟩ : VaultMember) ∈
        (postVaultsEndpoint txOk hdr name s).2.1.db.vaultMembers) ∧
    (txOk = false →
      (postVaultsEndpoint txOk hdr name s).1 =
        .err ⟨500, some false, "Failed to create vault"⟩ ∧
      (postVaultsEndpoint txOk hdr name s).2.1.db = s.db) := by
  intro txOk hdr name s u hauth hname
  constructor
  · intro htx
    subst htx
    refine ⟨?_, ?_, ?_⟩ <;>
      simp [postVaultsEndpoint, withAuth, hauth, postVaultsHandler, hname]
  · intro htx
    subst htx
    refine ⟨?_, ?_⟩ <;>
      simp [postVaultsEndpoint, withAuth, hauth, postVaultsHandler, hname]

/-- Witness for C2: Alice creates a vault named `"Lab"` in the concrete
world, once with the transaction succeeding and once with it failing. -/
theorem postVaults_vault_and_owner_atomic_witness :
    ((postVaultsEndpoint true hdrA (some "Lab") s0).1 =
        .ok 201 ⟨100, "Lab", "OWNER", 9⟩ false ∧
      (⟨100, "Lab", 1, 9⟩ : Vault) ∈
        (postVaultsEndpoint true hdrA (some "Lab") s0).2.1.db.vaults ∧
      (⟨100, 1, "OWNER"⟩ : VaultMember) ∈
        (postVaultsEndpoint true hdrA (some "Lab") s0).2.1.db.vaultMembers) ∧
    ((postVaultsEndpoint false hdrA (some "Lab") s0).1 =
        .err ⟨500, some false, "Failed to create vault"⟩ ∧
      (postVaultsEndpoint false hdrA (some "Lab") s0).2.1.db = s0.db) :=
  ⟨(postVaults_vault_and_owner_atomic true hdrA (some "Lab") s0 aliceAuth
      (by decide) (by decide)).1 rfl,
   (postVaults_vault_and_owner_atomic false hdrA (some "Lab") s0 aliceAuth
      (by decide) (by decide)).2 rfl⟩

/-- C9: a `POST /auth/login` that passes validation but fails
authentication is answered `401 {success:false, error:'Invalid email or
password'}` — identically whether the email is not registered or the
password is wrong for a registered email, so the two failure causes are
indistinguishable from the response. -/
theorem login_failure_uniform :
    ∀ (check : String → String → Bool) (sign : AuthUser → String)
      (s : ServerState) (e1 p1 e2 p2 : Option String),
    truthy e1 = true → truthy p1 = true →
    truthy e2 = true → truthy p2 = true →
    (s.db.users.find? (fun uu => uu.email == e1.getD "") = none ∨
      ∃ u, s.db.users.find? (fun uu => uu.email == e1.getD "") = some u ∧
        check (p1.getD "") u.password = false) →
    (s.db.users.find? (fun uu => uu.email == e2.getD "") = none ∨
      ∃ u, s.db.users.find? (fun uu => uu.email == e2.getD "") = some u ∧
        check (p2.getD "") u.password = false) →
    (postAuthLogin check sign e1 p1 s).1 =
      .err ⟨401, some false, "Invalid email or password"⟩ ∧
    (postAuthLogin check sign e1 p1 s).1 =
      (postAuthLogin check sign e2 p2 s).1 := by
  intro check sign s e1 p1 e2 p2 he1 hp1 he2 hp2 hf1 hf2
  have key : ∀ (e p : Option String), truthy e = true → truthy p = true →
      (s.db.users.find? (fun uu => uu.email == e.getD "") = none ∨
        ∃ u, s.db.users.find? (fun uu => uu.email == e.getD "") = some u ∧
          check (p.getD "") u.password = false) →
      (postAuthLogin check sign e p s).1 =
        .err ⟨401, some false, "Invalid email or password"⟩ := by
    intro e p he hp hf
    rcases hf with hnone | ⟨u, hu, hpw⟩
    · simp [postAuthLogin, he, hp, hnone]
    · simp [postAuthLogin, he, hp, hu, hpw]
  have h1 := key e1 p1 he1 hp1 hf1
  have h2 := key e2 p2 he2 hp2 hf2
  exact ⟨h1, h1.trans h2.symm⟩

/-- Witness for C9: in the concrete world (where `bcrypt.compare` is
modelled as string equality against the stored hash), logging in with an
unregistered email and logging in with a wrong password for Alice's
registered email produce the same 401 response. -/
theorem login_failure_uniform_witness :
    (postAuthLogin (fun p h => p == h) (fun _ => "jwt")
        (some "nobody@example.com") (some "guess") s0).1 =
      .err ⟨401, some false, "Invalid email or password"⟩ ∧
    (postAuthLogin (fun p h => p == h) (fun _ => "jwt")
        (some "nobody@example.com") (some "guess") s0).1 =
      (postAuthLogin (fun p h => p == h) (fun _ => "jwt")
        (some "alice@example.com") (some "wrong-password") s0).1 :=
  login_failure_uniform (fun p h => p == h) (fun _ => "jwt") s0
    (some "nobody@example.com") (some "guess")
    (some "alice@example.com") (some "wrong-password")
    (by decide) (by decide) (by decide) (by decide)
    (Or.inl (by decide))
    (Or.inr ⟨⟨1, "alice@example.com", "hash-a", "Alice"⟩,
      by decide, by decide⟩)

/-- Anything in `insertDescBy key x l` is `x` or comes from `l`. -/
theorem mem_insertDescBy {key : α → Nat} {x y : α} :
    ∀ {l : List α}, y ∈ insertDescBy key x l → y = x ∨ y ∈ l := by
  intro l
  induction l with
  | nil =>
    intro h
    simpa [insertDescBy] using h
  | cons a as_ ih =>
    intro h
    by_cases hk : key x ≤ key a
    · rw [insertDescBy, if_pos hk] at h
      rcases List.mem_cons.mp h with rfl | h'
      · exact Or.inr (List.mem_cons_self _ _)
      · rcases ih h' with rfl | h''
        · exact Or.inl rfl
        · exact Or.inr (List.mem_cons_of_mem _ h'')
    · rw [insertDescBy, if_neg hk] at h
      rcases List.mem_cons.mp h with rfl | h'
      · exact Or.inl rfl
      · exact Or.inr h'

/-- Inserting into a descending list keeps it descending. -/
theorem pairwise_insertDescBy {key : α → Nat} (x : α) :
    ∀ {l : List α}, l.Pairwise (fun a b => key b ≤ key a) →
      (insertDescBy key x l).Pairwise (fun a b => key b ≤ key a) := by
  intro l
  induction l with
  | nil =>
    intro _
    simp [insertDescBy]
  | cons a as_ ih =>
    intro h
    rw [List.pairwise_cons] at h
    obtain ⟨ha, has⟩ := h
    by_cases hk : key x ≤ key a
    · rw [insertDescBy, if_pos hk, List.pairwise_cons]
      refine ⟨fun z hz => ?_, ih has⟩
      rcases mem_insertDescBy hz with rfl | hz'
      · exact hk
      · exact ha z hz'
    · rw [insertDescBy, if_neg hk, List.pairwise_cons]
      refine ⟨fun z hz => ?_, List.pairwise_cons.mpr ⟨ha, has⟩⟩
      rcases List.mem_cons.mp hz with rfl | hz'
      · exact Nat.le_of_lt (Nat.lt_of_not_le hk)
      · exact Nat.le_trans (ha z hz') (Nat.le_of_lt (Nat.lt_of_not_le hk))

/-- `sortDescBy` sorts in descending key order. -/
theorem sortDescBy_pairwise (key : α → Nat) :
    ∀ (l : List α),
      (sortDescBy key l).Pairwise (fun a b => key b ≤ key a) := by
  intro l
  induction l with
  | nil => simp [sortDescBy]
  | cons x xs ih => simpa [sortDescBy] using pairwise_insertDescBy x ih

/-- The audit page never exceeds 100 entries (`take: 100`). -/
theorem freshAuditRows_length_le (db : Db) (vid : Nat) :
    (freshAuditRows db vid).length ≤ 100 := by
  unfold freshAuditRows
  rw [List.length_map]
  exact List.length_take_le _ _

/-- The audit page is ordered by `createdAt` descending. -/
theorem freshAuditRows_sorted (db : Db) (vid : Nat) :
    (freshAuditRows db vid).Pairwise
      (fun a b => b.createdAt ≤ a.createdAt) := by
  unfold freshAuditRows
  exact List.pairwise_map.mpr
    ((sortDescBy_pairwise AuditLog.createdAt _).sublist
      (List.take_sublist _ _))

/-- C10: `GET /vaults/:id/audit` answers 403 to non-members and to
members whose role is not OWNER, and serves an OWNER at most 100
audit-log entries ordered by `createdAt` descending. -/
theorem audit_owner_sorted_limited :
    ∀ (hdr : Option String) (vid : Nat) (s : ServerState) (u : AuthUser),
    authenticate s hdr = .ok u →
    (findMembership s.db vid u.id = none →
      getVaultAuditEndpoint hdr vid s =
        (.err ⟨403, some false, "You do not have access to this vault"⟩,
          s, [.read])) ∧
    (∀ m, findMembership s.db vid u.id = some m → m.role ≠ "OWNER" →
      getVaultAuditEndpoint hdr vid s =
        (.err ⟨403, some false,
            "This action requires one of these roles: OWNER"⟩,
          s, [.read])) ∧
    (∀ m, findMembership s.db vid u.id = some m → m.role = "OWNER" →
      (getVaultAuditEndpoint hdr vid s).1 =
        .ok 200 (freshAuditRows s.db vid) false ∧
      (freshAuditRows s.db vid).length ≤ 100 ∧
      (freshAuditRows s.db vid).Pairwise
        (fun a b => b.createdAt ≤ a.createdAt)) := by
  intro hdr vid s u hauth
  refine ⟨fun h => ?_, fun m hm hr => ?_, fun m hm hr => ?_⟩
  · simp [getVaultAuditEndpoint, withAuth, hauth, withVaultRole,
      requireVaultRole, h]
  · simp [getVaultAuditEndpoint, withAuth, hauth, withVaultRole,
      requireVaultRole, hm, hr]
    rfl
  · refine ⟨?_, freshAuditRows_length_le s.db vid,
      freshAuditRows_sorted s.db vid⟩
    simp [getVaultAuditEndpoint, withAuth, hauth, withVaultRole,
      requireVaultRole, hm, hr]

/-- Witness for C10: in the concrete world, the OWNER Alice gets the
audit page of vault 10 (sorted, at most 100 entries), the VIEWER Bob
gets 403, and the non-member Carol gets 403. -/
theorem audit_owner_sorted_limited_witness :
    ((getVaultAuditEndpoint hdrA 10 s0).1 =
        .ok 200 (freshAuditRows s0.db 10) false ∧
      (freshAuditRows s0.db 10).length ≤ 100 ∧
      (freshAuditRows s0.db 10).Pairwise
        (fun a b => b.createdAt ≤ a.createdAt)) ∧
    getVaultAuditEndpoint hdrB 10 s0 =
      (.err ⟨403, some false,
          "This action requires one of these roles: OWNER"⟩,
        s0, [.read]) ∧
    getVaultAuditEndpoint hdrC 10 s0 =
      (.err ⟨403, some false, "You do not have access to this vault"⟩,
        s0, [.read]) :=
  ⟨(audit_owner_sorted_limited hdrA 10 s0 aliceAuth (by decide)).2.2
      ⟨10, 1, "OWNER"⟩ (by decide) (by decide),
   (audit_owner_sorted_limited hdrB 10 s0 bobAuth (by decide)).2.1
      ⟨10, 2, "VIEWER"⟩ (by decide) (by decide),
   (audit_owner_sorted_limited hdrC 10 s0 carolAuth (by decide)).1
      (by decide)⟩

/-! ## The role-enum invariant -/

/-- Every VaultMember row carries a role of the enum
{OWNER, CONTRIBUTOR, VIEWER}. -/
def rolesOk (db : Db) : Prop :=
  ∀ m ∈ db.vaultMembers,
    m.role ∈ (["OWNER", "CONTRIBUTOR", "VIEWER"] : List String)

/-- A state predicate survives `withAuth` when the handler preserves it
(the middleware itself never changes the state). -/
theorem withAuth_state {α : Type} (s : ServerState) (hdr : Option String)
    (k : AuthUser → EndpointResult α) (P : ServerState → Prop)
    (hs : P s) (hk : ∀ u, P (k u).2.1) : P (withAuth s hdr k).2.1 := by
  unfold withAuth
  cases authenticate s hdr with
  | error e => exact hs
  | ok u => exact hk u

/-- A state predicate survives `withVaultRole` when the handler
preserves it. -/
theorem withVaultRole_state {α : Type} (roles : List String) (vid : Nat)
    (u : AuthUser) (s : ServerState) (k : String → EndpointResult α)
    (P : ServerState → Prop) (hs : P s) (hk : ∀ role, P (k role).2.1) :
    P (withVaultRole roles vid u s k).2.1 := by
  unfold withVaultRole
  cases requireVaultRole roles vid u.id s.db with
  | error e => exact hs
  | ok role => exact hk role

/-- `POST /auth/register` never touches the VaultMember table. -/
theorem members_register (hashFn : String → String)
    (sign : AuthUser → String) (email pw nm : Option String)
    (s : ServerState) :
    (postAuthRegister hashFn sign email pw nm s).2.1.db.vaultMembers =
      s.db.vaultMembers := by
  unfold postAuthRegister
  repeat' (first | split | (dsimp only; split))
  all_goals rfl

/-- `POST /auth/login` never touches the state. -/
theorem state_login (check : String → String → Bool)
    (sign : AuthUser → String) (email pw : Option String)
    (s : ServerState) :
    (postAuthLogin check sign email pw s).2.1 = s := by
  unfold postAuthLogin
  repeat' (first | split | (dsimp only; split))
  all_goals rfl

/-- The `GET /vaults` handler only writes the cache. -/
theorem db_getVaultsHandler (u : AuthUser) (s : ServerState) :
    (getVaultsHandler u s).2.1.db = s.db := by
  unfold getVaultsHandler
  repeat' (first | split | (dsimp only; split))
  all_goals rfl

/-- The `GET /vaults/:id/sources` handler only writes the cache. -/
theorem db_getVaultSourcesHandler (vid : Nat) (s : ServerState) :
    (getVaultSourcesHandler vid s).2.1.db = s.db := by
  unfold getVaultSourcesHandler
  repeat' (first | split | (dsimp only; split))
  all_goals rfl

/-- `GET /sources/:id/download` never touches the state. -/
theorem state_downloadHandler (u : AuthUser) (sid : Nat)
    (s : ServerState) :
    (getSourceDownloadHandler u sid s).2.1 = s := by
  unfold getSourceDownloadHandler
  repeat' (first | split | (dsimp only; split))
  all_goals rfl

/-- The `POST /vaults/:id/sources` handler never touches the VaultMember
table. -/
theorem members_postVaultSourcesHandler (txFail : Option String)
    (fsOk : Bool) (u : AuthUser) (vid : Nat) (r : AddSourceReq)
    (s : ServerState) :
    (postVaultSourcesHandler txFail fsOk u vid r s).2.1.db.vaultMembers =
      s.db.vaultMembers := by
  have htx : ∀ (sourceType title sourceContent : String)
      (mime : Option String) (sz : Option Nat),
      (addSourceTx txFail u vid sourceType title sourceContent mime sz
        s).2.1.db.vaultMembers = s.db.vaultMembers := by
    intro sourceType title sourceContent mime sz
    unfold addSourceTx
    repeat' (first | split | (dsimp only; split))
    all_goals rfl
  unfold postVaultSourcesHandler
  repeat' (first | split | (dsimp only; split))
  all_goals first | rfl | apply htx

/-- The `POST /vaults` handler leaves the VaultMember table unchanged or
appends exactly the creator's OWNER row. -/
theorem members_postVaultsHandler (txOk : Bool) (u : AuthUser)
    (name : Option String) (s : ServerState) :
    (postVaultsHandler txOk u name s).2.1.db.vaultMembers =
        s.db.vaultMembers ∨
    (postVaultsHandler txOk u name s).2.1.db.vaultMembers =
        s.db.vaultMembers ++ [⟨s.db.nextId, u.id, "OWNER"⟩] := by
  unfold postVaultsHandler
  repeat' (first | split | (dsimp only; split))
  all_goals first | exact Or.inl rfl | exact Or.inr rfl

/-- The `POST /vaults/:id/members` handler leaves the VaultMember table
unchanged or appends one row whose role passed the
`['CONTRIBUTOR', 'VIEWER']` check. -/
theorem members_postVaultMembersHandler (txOk : Bool) (ru : AuthUser)
    (vid : Nat) (email role : Option String) (s : ServerState) :
    (postVaultMembersHandler txOk ru vid email role s).2.1.db.vaultMembers =
        s.db.vaultMembers ∨
    (role.getD "" ∈ (["CONTRIBUTOR", "VIEWER"] : List String) ∧
      ∃ uid, (postVaultMembersHandler txOk ru vid email role s).2.1.db.vaultMembers =
        s.db.vaultMembers ++ [⟨vid, uid, role.getD ""⟩]) := by
  unfold postVaultMembersHandler
  repeat' (first | split | (dsimp only; split))
  all_goals first
    | exact Or.inl rfl
    | (refine Or.inr ⟨?_, _, rfl⟩; simp_all; tauto)

/-- C8: every operation preserves the role-enum invariant — every
endpoint maps a database whose VaultMember roles all lie in
{OWNER, CONTRIBUTOR, VIEWER} to another such database; `POST /vaults`
only ever adds an OWNER membership; and `POST /vaults/:id/members`
(reached by an authenticated OWNER) answers 400 and changes nothing for
any requested role outside {CONTRIBUTOR, VIEWER}. -/
theorem role_enum_preserved :
    ∀ (s : ServerState) (hashFn : String → String)
      (check : String → String → Bool) (sign : AuthUser → String)
      (txOk fsOk : Bool) (txFail : Option String)
      (hdr email pw nm name role : Option String) (vid sid : Nat)
      (r : AddSourceReq),
    rolesOk s.db →
    rolesOk (postAuthRegister hashFn sign email pw nm s).2.1.db ∧
    rolesOk (postAuthLogin check sign email pw s).2.1.db ∧
    rolesOk (getVaultsEndpoint hdr s).2.1.db ∧
    rolesOk (postVaultsEndpoint txOk hdr name s).2.1.db ∧
    rolesOk (getVaultSourcesEndpoint hdr vid s).2.1.db ∧
    rolesOk (postVaultSourcesEndpoint txFail fsOk hdr vid r s).2.1.db ∧
    rolesOk (postVaultMembersEndpoint txOk hdr vid email role s).2.1.db ∧
    rolesOk (getVaultAuditEndpoint hdr vid s).2.1.db ∧
    rolesOk (getSourceDownloadEndpoint hdr sid s).2.1.db ∧
    (∀ m, m ∈ (postVaultsEndpoint txOk hdr name s).2.1.db.vaultMembers →
      m ∈ s.db.vaultMembers ∨ m.role = "OWNER") ∧
    (∀ u m, authenticate s hdr = .ok u →
      findMembership s.db vid u.id = some m → m.role = "OWNER" →
      truthy email = true → truthy role = true →
      role.getD "" ∉ (["CONTRIBUTOR", "VIEWER"] : List String) →
      postVaultMembersEndpoint txOk hdr vid email role s =
        (.err ⟨400, some false, "Invalid role. Use CONTRIBUTOR or VIEWER"⟩,
          s, [.read])) := by
  intro s hashFn check sign txOk fsOk txFail hdr email pw nm name role
    vid sid r hok
  have hpostVaults : ∀ m,
      m ∈ (postVaultsEndpoint txOk hdr name s).2.1.db.vaultMembers →
      m ∈ s.db.vaultMembers ∨ m.role = "OWNER" := by
    intro m
    unfold postVaultsEndpoint
    refine withAuth_state s hdr _
      (fun st => m ∈ st.db.vaultMembers → m ∈ s.db.vaultMembers ∨ m.role = "OWNER")
      (fun h => Or.inl h) (fun u => ?_)
    rcases members_postVaultsHandler txOk u name s with h | h <;> rw [h]
    · exact fun hm => Or.inl hm
    · intro hm
      rcases List.mem_append.mp hm with hm' | hm'
      · exact Or.inl hm'
      · right
        rw [List.mem_singleton.mp hm']
  refine ⟨?_, ?_, ?_, ?_, ?_, ?_, ?_, ?_, ?_, hpostVaults, ?_⟩
  · intro m hm
    rw [members_register hashFn sign email pw nm s] at hm
    exact hok m hm
  · intro m hm
    rw [state_login check sign email pw s] at hm
    exact hok m hm
  · unfold getVaultsEndpoint
    refine withAuth_state s hdr _ (fun st => rolesOk st.db) hok (fun u => ?_)
    intro m hm
    rw [db_getVaultsHandler u s] at hm
    exact hok m hm
  · intro m hm
    rcases hpostVaults m hm with h | h
    · exact hok m h
    · rw [h]; simp
  · unfold getVaultSourcesEndpoint
    refine withAuth_state s hdr _ (fun st => rolesOk st.db) hok (fun u => ?_)
    refine withVaultRole_state _ vid u s _ (fun st => rolesOk st.db) hok
      (fun role' => ?_)
    intro m hm
    rw [db_getVaultSourcesHandler vid s] at hm
    exact hok m hm
  · unfold postVaultSourcesEndpoint
    refine withAuth_state s hdr _ (fun st => rolesOk st.db) hok (fun u => ?_)
    refine withVaultRole_state _ vid u s _ (fun st => rolesOk st.db) hok
      (fun role' => ?_)
    intro m hm
    rw [members_postVaultSourcesHandler txFail fsOk u vid r s] at hm
    exact hok m hm
  · unfold postVaultMembersEndpoint
    refine withAuth_state s hdr _ (fun st => rolesOk st.db) hok (fun u => ?_)
    refine withVaultRole_state _ vid u s _ (fun st => rolesOk st.db) hok
      (fun role' => ?_)
    rcases members_postVaultMembersHandler txOk u vid email role s with
      h | ⟨hrole, uid, h⟩ <;> intro m hm <;> rw [h] at hm
    · exact hok m hm
    · rcases List.mem_append.mp hm with hm' | hm'
      · exact hok m hm'
      · rw [List.mem_singleton.mp hm']
        have hrole' : role.getD "" = "CONTRIBUTOR" ∨ role.getD "" = "VIEWER" := by
          simpa using hrole
        rcases hrole' with h' | h' <;> rw [h'] <;> simp
  · unfold getVaultAuditEndpoint
    refine withAuth_state s hdr _ (fun st => rolesOk st.db) hok (fun u => ?_)
    exact withVaultRole_state _ vid u s _ (fun st => rolesOk st.db) hok
      (fun role' => hok)
  · unfold getSourceDownloadEndpoint
    refine withAuth_state s hdr _ (fun st => rolesOk st.db) hok (fun u => ?_)
    intro m hm
    rw [state_downloadHandler u sid s] at hm
    exact hok m hm
  · intro u m hauth hm hrole hemail hrl hbad
    have h1 : ¬ role.getD "" = "CONTRIBUTOR" := fun h => hbad (by rw [h]; simp)
    have h2 : ¬ role.getD "" = "VIEWER" := fun h => hbad (by rw [h]; simp)
    simp [postVaultMembersEndpoint, withAuth, hauth, withVaultRole,
      requireVaultRole, hm, hrole, postVaultMembersHandler, hemail, hrl,
      h1, h2]

/-- The concrete world satisfies the role-enum invariant. -/
theorem rolesOk_s0 : rolesOk s0.db := by
  intro m hm
  simp [s0, db0] at hm
  rcases hm with rfl | rfl <;> simp

/-- Witness for C8: in the concrete world (whose roles are all in the
enum) the invariant survives a round of every endpoint, `POST /vaults`
only adds OWNER rows, and Alice requesting role `"ADMIN"` for Carol on
vault 10 gets 400. -/
theorem role_enum_preserved_witness :
    rolesOk (postVaultsEndpoint true hdrA (some "Lab") s0).2.1.db ∧
    rolesOk (postVaultMembersEndpoint true hdrA 10
      (some "carol@example.com") (some "CONTRIBUTOR") s0).2.1.db ∧
    postVaultMembersEndpoint true hdrA 10 (some "carol@example.com")
        (some "ADMIN") s0 =
      (.err ⟨400, some false, "Invalid role. Use CONTRIBUTOR or VIEWER"⟩,
        s0, [.read]) :=
  ⟨(role_enum_preserved s0 id (fun p h => p == h) (fun _ => "jwt")
      true true none hdrA (some "carol@example.com") none none
      (some "Lab") (some "CONTRIBUTOR") 10 20 noteReq
      rolesOk_s0).2.2.2.1,
   (role_enum_preserved s0 id (fun p h => p == h) (fun _ => "jwt")
      true true none hdrA (some "carol@example.com") none none
      (some "Lab") (some "CONTRIBUTOR") 10 20 noteReq
      rolesOk_s0).2.2.2.2.2.2.1,
   (role_enum_preserved s0 id (fun p h => p == h) (fun _ => "jwt")
      true true none hdrA (some "carol@example.com") none none
      (some "Lab") (some "ADMIN") 10 20 noteReq
      rolesOk_s0).2.2.2.2.2.2.2.2.2.2 aliceAuth ⟨10, 1, "OWNER"⟩
      (by decide) (by decide) (by decide) (by decide) (by decide)
      (by decide)⟩

/-! ## Cache discipline -/

/-- Reading a key just set returns the stored value. -/
theorem cacheGet_cacheSet (c : Cache) (k : String) (v : CacheVal)
    (ex : Nat) : cacheGet (cacheSet c k v ex) k = some v := by
  simp [cacheGet, cacheSet]

/-- The TTL of a key just set is the `EX` argument. -/
theorem cacheTTL_cacheSet (c : Cache) (k : String) (v : CacheVal)
    (ex : Nat) : cacheTTL (cacheSet c k v ex) k = some ex := by
  simp [cacheTTL, cacheSet]

/-- Reading a key just deleted misses. -/
theorem cacheGet_cacheDel (c : Cache) (k : String) :
    cacheGet (cacheDel c k) k = none := by
  induction c with
  | nil => rfl
  | cons e es ih =>
    by_cases he : e.1 == k
    · simpa [cacheDel, List.filter, he] using ih
    · simpa [cacheDel, cacheGet, List.filter, List.find?, he] using ih

/-- The `POST /vaults/:id/sources` handler does not change the Redis
availability flag. -/
theorem ready_postVaultSourcesHandler (txFail : Option String)
    (fsOk : Bool) (u : AuthUser) (vid : Nat) (r : AddSourceReq)
    (s : ServerState) :
    (postVaultSourcesHandler txFail fsOk u vid r s).2.1.redisReady =
      s.redisReady := by
  have htx : ∀ (st tl ct : String) (mime : Option String) (sz : Option Nat),
      (addSourceTx txFail u vid st tl ct mime sz s).2.1.redisReady =
        s.redisReady := by
    intro st tl ct mime sz
    unfold addSourceTx
    repeat' (first | split | (dsimp only; split))
    all_goals rfl
  unfold postVaultSourcesHandler
  repeat' (first | split | (dsimp only; split))
  all_goals first | rfl | apply htx

/-- A successful `POST /vaults` deletes the creator's
`vaults:user:<userId>` cache key. -/
theorem postVaults_invalidates (txOk : Bool) (u : AuthUser)
    (name : Option String) (s : ServerState) (v : VaultRow)
    (hready : s.redisReady = true)
    (h : (postVaultsHandler txOk u name s).1 = .ok 201 v false) :
    cacheGet (postVaultsHandler txOk u name s).2.1.cache
      (vaultsUserKey u.id) = none := by
  unfold postVaultsHandler at h ⊢
  by_cases hname : name = none ∨ jsTrim (name.getD "") = ""
  · rw [if_pos hname] at h
    exact absurd h (by simp)
  · rw [if_neg hname] at h ⊢
    cases txOk
    · exact absurd h (by simp)
    · simp [hready, cacheGet_cacheDel]

/-- A successful source-adding transaction deletes the vault's
`vault:<vaultId>:sources` cache key. -/
theorem addSourceTx_invalidates (txFail : Option String) (u : AuthUser)
    (vid : Nat) (st tl ct : String) (mime : Option String)
    (sz : Option Nat) (s : ServerState) (srow : SourceRow)
    (hready : s.redisReady = true)
    (h : (addSourceTx txFail u vid st tl ct mime sz s).1 =
      .ok 201 srow false) :
    cacheGet (addSourceTx txFail u vid st tl ct mime sz s).2.1.cache
      (vaultSourcesKey vid) = none := by
  cases txFail with
  | some m => exact absurd h (by simp [addSourceTx])
  | none =>
    unfold addSourceTx
    simp [hready, cacheGet_cacheDel]

set_option maxHeartbeats 1000000 in
/-- A successful `POST /vaults/:id/sources` deletes the vault's
`vault:<vaultId>:sources` cache key. -/
theorem postVaultSources_invalidates (txFail : Option String)
    (fsOk : Bool) (u : AuthUser) (vid : Nat) (r : AddSourceReq)
    (s : ServerState) (srow : SourceRow)
    (hready : s.redisReady = true)
    (h : (postVaultSourcesHandler txFail fsOk u vid r s).1 =
      .ok 201 srow false) :
    cacheGet (postVaultSourcesHandler txFail fsOk u vid r s).2.1.cache
      (vaultSourcesKey vid) = none := by
  have shape :
      ((∃ e, (postVaultSourcesHandler txFail fsOk u vid r s).1 = .err e) ∧
        (postVaultSourcesHandler txFail fsOk u vid r s).2.1.cache =
          s.cache) ∨
      ∃ st tl ct mime sz,
        postVaultSourcesHandler txFail fsOk u vid r s =
          addSourceTx txFail u vid st tl ct mime sz s := by
    unfold postVaultSourcesHandler
    repeat' (first | split | (dsimp only; split))
    all_goals first
      | exact Or.inl ⟨⟨_, rfl⟩, rfl⟩
      | exact Or.inr ⟨_, _, _, _, _, rfl⟩
  rcases shape with ⟨⟨e, he⟩, _⟩ | ⟨st, tl, ct, mime, sz, heq⟩
  · rw [h] at he
    exact absurd he (by simp)
  · rw [heq] at h ⊢
    exact addSourceTx_invalidates _ _ _ _ _ _ _ _ _ srow hready h

/-- A successful `POST /vaults/:id/members` deletes the added user's
`vaults:user:<userId>` cache key. -/
theorem postVaultMembers_invalidates (txOk : Bool) (ru : AuthUser)
    (vid : Nat) (email role : Option String) (s : ServerState)
    (userToAdd : User) (msg : String)
    (hready : s.redisReady = true)
    (hfind : s.db.users.find? (fun uu => uu.email == email.getD "") =
      some userToAdd)
    (h : (postVaultMembersHandler txOk ru vid email role s).1 =
      .ok 201 msg false) :
    cacheGet (postVaultMembersHandler txOk ru vid email role s).2.1.cache
      (vaultsUserKey userToAdd.id) = none := by
  have shape :
      ((∃ e, (postVaultMembersHandler txOk ru vid email role s).1 =
          .err e) ∧
        (postVaultMembersHandler txOk ru vid email role s).2.1.cache =
          s.cache) ∨
      ∃ w, s.db.users.find? (fun uu => uu.email == email.getD "") =
          some w ∧
        (postVaultMembersHandler txOk ru vid email role s).2.1.cache =
          (if s.redisReady then cacheDel s.cache (vaultsUserKey w.id)
           else s.cache) := by
    unfold postVaultMembersHandler
    repeat' (first | split | (dsimp only; split))
    all_goals first
      | exact Or.inl ⟨⟨_, rfl⟩, rfl⟩
      | exact Or.inr ⟨_, by assumption, rfl⟩
  rcases shape with ⟨⟨e, he⟩, _⟩ | ⟨w, hw, heq⟩
  · rw [h] at he
    exact absurd he (by simp)
  · rw [hfind] at hw
    cases hw
    rw [heq, if_pos hready]
    exact cacheGet_cacheDel s.cache (vaultsUserKey userToAdd.id)

/-- On a cache miss, `GET /vaults` serves the database and stores it
under `vaults:user:<userId>` with TTL 300. -/
theorem getVaults_cache_miss (u : AuthUser) (s : ServerState)
    (hready : s.redisReady = true)
    (hmiss : cacheGet s.cache (vaultsUserKey u.id) = none) :
    (getVaultsHandler u s).1 =
      .ok 200 (.vaultList (freshVaultRows s.db u.id)) false ∧
    cacheGet (getVaultsHandler u s).2.1.cache (vaultsUserKey u.id) =
      some (.vaultList (freshVaultRows s.db u.id)) ∧
    cacheTTL (getVaultsHandler u s).2.1.cache (vaultsUserKey u.id) =
      some 300 := by
  unfold getVaultsHandler
  simp [hready, hmiss, cacheGet_cacheSet, cacheTTL_cacheSet]

/-- On a cache miss, `GET /vaults/:id/sources` serves the database and
stores it under `vault:<vaultId>:sources` with TTL 60. -/
theorem getVaultSources_cache_miss (vid : Nat) (s : ServerState)
    (hready : s.redisReady = true)
    (hmiss : cacheGet s.cache (vaultSourcesKey vid) = none) :
    (getVaultSourcesHandler vid s).1 =
      .ok 200 (.sourceList (freshSourceRows s.db vid)) false ∧
    cacheGet (getVaultSourcesHandler vid s).2.1.cache
      (vaultSourcesKey vid) = some (.sourceList (freshSourceRows s.db vid)) ∧
    cacheTTL (getVaultSourcesHandler vid s).2.1.cache
      (vaultSourcesKey vid) = some 60 := by
  unfold getVaultSourcesHandler
  simp [hready, hmiss, cacheGet_cacheSet, cacheTTL_cacheSet]

/-- After a successful `POST /vaults/:id/sources`, a
`GET /vaults/:id/sources` on the resulting state recomputes from the
database — it can never serve the pre-write cached value. -/
theorem read_after_write_fresh (txFail : Option String) (fsOk : Bool)
    (u : AuthUser) (vid : Nat) (r : AddSourceReq) (s : ServerState)
    (srow : SourceRow)
    (h : (postVaultSourcesHandler txFail fsOk u vid r s).1 =
      .ok 201 srow false) :
    (getVaultSourcesHandler vid
        (postVaultSourcesHandler txFail fsOk u vid r s).2.1).1 =
      .ok 200 (.sourceList (freshSourceRows
        (postVaultSourcesHandler txFail fsOk u vid r s).2.1.db vid))
        false := by
  have hready' :
      (postVaultSourcesHandler txFail fsOk u vid r s).2.1.redisReady =
        s.redisReady :=
    ready_postVaultSourcesHandler txFail fsOk u vid r s
  have hmiss : (if (postVaultSourcesHandler txFail fsOk u vid r
        s).2.1.redisReady = true then
      cacheGet (postVaultSourcesHandler txFail fsOk u vid r s).2.1.cache
        (vaultSourcesKey vid)
    else none) = none := by
    cases hr : s.redisReady with
    | false => rw [hready', hr]; simp
    | true =>
      rw [hready', hr]
      simpa using
        postVaultSources_invalidates txFail fsOk u vid r s srow hr h
  unfold getVaultSourcesHandler
  dsimp only
  rw [hmiss]

/-- C7: the two read-through endpoints cache under their fixed keys and
TTLs — `GET /vaults` under `vaults:user:<userId>` with `EX: 300`,
`GET /vaults/:id/sources` under `vault:<vaultId>:sources` with
`EX: 60` — and each successful write deletes the matching key:
`POST /vaults` the creator's vault-list key, `POST /vaults/:id/sources`
the vault's sources key, `POST /vaults/:id/members` the added user's
vault-list key; consequently a `GET /vaults/:id/sources` right after a
successful `POST /vaults/:id/sources` always serves the post-write
database content, never the pre-write cached value. -/
theorem cache_keys_ttls_invalidation :
    ∀ (s : ServerState) (u ru : AuthUser) (vid : Nat) (txOk fsOk : Bool)
      (txFail : Option String) (name email role : Option String)
      (r : AddSourceReq) (v : VaultRow) (srow : SourceRow) (msg : String)
      (userToAdd : User),
    (s.redisReady = true → cacheGet s.cache (vaultsUserKey u.id) = none →
      (getVaultsHandler u s).1 =
        .ok 200 (.vaultList (freshVaultRows s.db u.id)) false ∧
      cacheGet (getVaultsHandler u s).2.1.cache (vaultsUserKey u.id) =
        some (.vaultList (freshVaultRows s.db u.id)) ∧
      cacheTTL (getVaultsHandler u s).2.1.cache (vaultsUserKey u.id) =
        some 300) ∧
    (s.redisReady = true → cacheGet s.cache (vaultSourcesKey vid) = none →
      (getVaultSourcesHandler vid s).1 =
        .ok 200 (.sourceList (freshSourceRows s.db vid)) false ∧
      cacheGet (getVaultSourcesHandler vid s).2.1.cache
        (vaultSourcesKey vid) =
        some (.sourceList (freshSourceRows s.db vid)) ∧
      cacheTTL (getVaultSourcesHandler vid s).2.1.cache
        (vaultSourcesKey vid) = some 60) ∧
    (s.redisReady = true →
      (postVaultsHandler txOk u name s).1 = .ok 201 v false →
      cacheGet (postVaultsHandler txOk u name s).2.1.cache
        (vaultsUserKey u.id) = none) ∧
    (s.redisReady = true →
      (postVaultSourcesHandler txFail fsOk u vid r s).1 =
        .ok 201 srow false →
      cacheGet (postVaultSourcesHandler txFail fsOk u vid r s).2.1.cache
        (vaultSourcesKey vid) = none) ∧
    (s.redisReady = true →
      s.db.users.find? (fun uu => uu.email == email.getD "") =
        some userToAdd →
      (postVaultMembersHandler txOk ru vid email role s).1 =
        .ok 201 msg false →
      cacheGet (postVaultMembersHandler txOk ru vid email role s).2.1.cache
        (vaultsUserKey userToAdd.id) = none) ∧
    ((postVaultSourcesHandler txFail fsOk u vid r s).1 =
        .ok 201 srow false →
      (getVaultSourcesHandler vid
          (postVaultSourcesHandler txFail fsOk u vid r s).2.1).1 =
        .ok 200 (.sourceList (freshSourceRows
          (postVaultSourcesHandler txFail fsOk u vid r s).2.1.db vid))
          false) := by
  intro s u ru vid txOk fsOk txFail name email role r v srow msg userToAdd
  exact ⟨getVaults_cache_miss u s,
    getVaultSources_cache_miss vid s,
    postVaults_invalidates txOk u name s v,
    postVaultSources_invalidates txFail fsOk u vid r s srow,
    fun hready hfind h =>
      postVaultMembers_invalidates txOk ru vid email role s userToAdd msg
        hready hfind h,
    read_after_write_fresh txFail fsOk u vid r s srow⟩

/-- The source row a successful concrete `POST /vaults/:id/sources`
answers in the concrete world. -/
def noteRow : SourceRow :=
  ⟨100, 10, "note", "My note", some "hello", none, none, "Alice", 9, none⟩

/-- Witness for C7: in the concrete world (Redis up, cache empty) the
vault-list read caches with TTL 300, the sources read caches with TTL
60, Alice's vault creation deletes her vault-list key, her source post
deletes the vault's sources key, adding Carol deletes Carol's vault-list
key, and a sources read right after the source post serves the fresh
database rows. -/
theorem cache_keys_ttls_invalidation_witness :
    ((getVaultsHandler aliceAuth s0).1 =
        .ok 200 (.vaultList (freshVaultRows s0.db aliceAuth.id)) false ∧
      cacheGet (getVaultsHandler aliceAuth s0).2.1.cache
        (vaultsUserKey aliceAuth.id) =
        some (.vaultList (freshVaultRows s0.db aliceAuth.id)) ∧
      cacheTTL (getVaultsHandler aliceAuth s0).2.1.cache
        (vaultsUserKey aliceAuth.id) = some 300) ∧
    ((getVaultSourcesHandler 10 s0).1 =
        .ok 200 (.sourceList (freshSourceRows s0.db 10)) false ∧
      cacheGet (getVaultSourcesHandler 10 s0).2.1.cache
        (vaultSourcesKey 10) =
        some (.sourceList (freshSourceRows s0.db 10)) ∧
      cacheTTL (getVaultSourcesHandler 10 s0).2.1.cache
        (vaultSourcesKey 10) = some 60) ∧
    cacheGet (postVaultsHandler true aliceAuth (some "Lab") s0).2.1.cache
      (vaultsUserKey aliceAuth.id) = none ∧
    cacheGet (postVaultSourcesHandler none true aliceAuth 10 noteReq
        s0).2.1.cache (vaultSourcesKey 10) = none ∧
    cacheGet (postVaultMembersHandler true aliceAuth 10
        (some "carol@example.com") (some "VIEWER") s0).2.1.cache
      (vaultsUserKey 3) = none ∧
    (getVaultSourcesHandler 10 (postVaultSourcesHandler none true
        aliceAuth 10 noteReq s0).2.1).1 =
      .ok 200 (.sourceList (freshSourceRows (postVaultSourcesHandler none
        true aliceAuth 10 noteReq s0).2.1.db 10)) false :=
  have base := cache_keys_ttls_invalidation s0 aliceAuth aliceAuth 10
    true true none (some "Lab") (some "carol@example.com") (some "VIEWER")
    noteReq ⟨100, "Lab", "OWNER", 9⟩ noteRow
    "User carol@example.com added as VIEWER"
    ⟨3, "carol@example.com", "hash-c", "Carol"⟩
  ⟨base.1 rfl rfl,
   base.2.1 rfl rfl,
   base.2.2.1 rfl (by decide),
   base.2.2.2.1 rfl (by decide),
   base.2.2.2.2.1 rfl (by decide) (by decide),
   base.2.2.2.2.2 (by decide)⟩

/-! ## Rate limiting and the global error handler -/

/-- The general limiter's window capacity (`max: 100`, installed on
every route by `app.use(generalLimiter)`). -/
def generalLimiterMax : Nat := 100

/-- The auth limiter's window capacity (`max: 10`, installed on
`/auth/register` and `/auth/login`). -/
def authLimiterMax : Nat := 10

/-- The general limiter's configured 429 response body. -/
def tooManyRequests : ErrR :=
  ⟨429, some false, "Too many requests, please try again later."⟩

/-- The auth limiter's configured 429 response body. -/
def tooManyAuthAttempts : ErrR :=
  ⟨429, some false,
    "Too many login/register attempts. Please try again in 15 minutes."⟩

/-- `express-rate-limit` in front of a route: when the client's
15-minute window already holds `limit` requests, the limiter answers
the configured message (status 429) and the route never runs; otherwise
the route's result stands.  `windowCount` is the number of requests the
window already holds. -/
def withRateLimit (windowCount limit : Nat) (message : ErrR)
    (k : EndpointResult α) (s : ServerState) : EndpointResult α :=
  if limit ≤ windowCount then (.err message, s, []) else k

/-- The global error handler: an error thrown by earlier middleware
(e.g. the JSON body parser's 413 for an oversized body or 415 for a bad
charset) is answered with `err.status || 500` and the enveloped body
`{success:false, error: err.message || 'An unexpected error occurred'}`
(`none` models an absent or falsy field). -/
def globalErrorHandler (errStatus : Option Nat) (errMsg : Option String) :
    Resp Unit :=
  .err ⟨errStatus.getD 500, some false,
    errMsg.getD "An unexpected error occurred"⟩

/-! ## The error envelope -/

/-- The HTTP statuses the route handlers' and auth/RBAC middleware's
error responses use. -/
def allowedErrStatuses : List Nat := [400, 401, 403, 404, 409, 500]

/-- Every error response has a status from `allowedErrStatuses` and a
body carrying `success: false` (non-error responses unconstrained). -/
def errEnvelopeOk : Resp α → Prop
  | .err e => e.status ∈ allowedErrStatuses ∧ e.success = some false
  | _ => True

/-- Every error response has a status from `allowedErrStatuses`. -/
def errStatusOk : Resp α → Prop
  | .err e => e.status ∈ allowedErrStatuses
  | _ => True

/-- Every error response has a status from `allowedErrStatuses` and a
body with no `success` field at all. -/
def errNoSuccess : Resp α → Prop
  | .err e => e.status ∈ allowedErrStatuses ∧ e.success = none
  | _ => True

/-- The only errors `authenticateToken` emits. -/
theorem authenticate_error (s : ServerState) (hdr : Option String)
    (e : ErrR) (h : authenticate s hdr = .error e) :
    e = ⟨401, some false, "Authentication required"⟩ ∨
    e = ⟨403, some false, "Invalid or expired token"⟩ := by
  unfold authenticate at h
  repeat' (first | split at h | (dsimp only at h; split at h))
  all_goals simp_all

/-- The only errors `requireVaultRole` emits. -/
theorem requireVaultRole_error (roles : List String) (vid uid : Nat)
    (db : Db) (e : ErrR) (h : requireVaultRole roles vid uid db = .error e) :
    e = ⟨403, some false, "You do not have access to this vault"⟩ ∨
    e = ⟨403, some false,
      "This action requires one of these roles: " ++
        String.intercalate ", " roles⟩ := by
  unfold requireVaultRole at h
  repeat' (first | split at h | (dsimp only at h; split at h))
  all_goals simp_all

/-- `authenticateToken` only emits enveloped 401/403 errors. -/
theorem errEnvelopeOk_withAuth {α : Type} (s : ServerState)
    (hdr : Option String) (k : AuthUser → EndpointResult α)
    (hk : ∀ u, errEnvelopeOk (k u).1) :
    errEnvelopeOk (withAuth s hdr k).1 := by
  unfold withAuth
  cases hauth : authenticate s hdr with
  | error e =>
    rcases authenticate_error s hdr e hauth with rfl | rfl <;>
      simp [errEnvelopeOk, allowedErrStatuses]
  | ok u => exact hk u

/-- `requireVaultRole` only emits enveloped 403 errors. -/
theorem errEnvelopeOk_withVaultRole {α : Type} (roles : List String)
    (vid : Nat) (u : AuthUser) (s : ServerState)
    (k : String → EndpointResult α)
    (hk : ∀ role, errEnvelopeOk (k role).1) :
    errEnvelopeOk (withVaultRole roles vid u s k).1 := by
  unfold withVaultRole
  cases hrbac : requireVaultRole roles vid u.id s.db with
  | error e =>
    rcases requireVaultRole_error roles vid u.id s.db e hrbac with rfl | rfl <;>
      simp [errEnvelopeOk, allowedErrStatuses]
  | ok role => exact hk role

/-- `POST /auth/register` errors are enveloped 400/409. -/
theorem envOk_register (hashFn : String → String)
    (sign : AuthUser → String) (email pw nm : Option String)
    (s : ServerState) :
    errEnvelopeOk (postAuthRegister hashFn sign email pw nm s).1 := by
  unfold postAuthRegister
  repeat' (first | split | (dsimp only; split))
  all_goals simp [errEnvelopeOk, allowedErrStatuses]

/-- `POST /auth/login` errors are enveloped 400/401. -/
theorem envOk_login (check : String → String → Bool)
    (sign : AuthUser → String) (email pw : Option String)
    (s : ServerState) :
    errEnvelopeOk (postAuthLogin check sign email pw s).1 := by
  unfold postAuthLogin
  repeat' (first | split | (dsimp only; split))
  all_goals simp [errEnvelopeOk, allowedErrStatuses]

/-- `GET /vaults` errors are enveloped. -/
theorem envOk_getVaults (hdr : Option String) (s : ServerState) :
    errEnvelopeOk (getVaultsEndpoint hdr s).1 := by
  unfold getVaultsEndpoint
  refine errEnvelopeOk_withAuth s hdr _ (fun u => ?_)
  unfold getVaultsHandler
  repeat' (first | split | (dsimp only; split))
  all_goals simp [errEnvelopeOk]

/-- `POST /vaults` errors are enveloped 400/500. -/
theorem envOk_postVaults (txOk : Bool) (hdr name : Option String)
    (s : ServerState) :
    errEnvelopeOk (postVaultsEndpoint txOk hdr name s).1 := by
  unfold postVaultsEndpoint
  refine errEnvelopeOk_withAuth s hdr _ (fun u => ?_)
  unfold postVaultsHandler
  repeat' (first | split | (dsimp only; split))
  all_goals simp [errEnvelopeOk, allowedErrStatuses]

/-- `GET /vaults/:id/sources` errors are enveloped. -/
theorem envOk_getVaultSources (hdr : Option String) (vid : Nat)
    (s : ServerState) :
    errEnvelopeOk (getVaultSourcesEndpoint hdr vid s).1 := by
  unfold getVaultSourcesEndpoint
  refine errEnvelopeOk_withAuth s hdr _ (fun u => ?_)
  refine errEnvelopeOk_withVaultRole _ vid u s _ (fun role => ?_)
  unfold getVaultSourcesHandler
  repeat' (first | split | (dsimp only; split))
  all_goals simp [errEnvelopeOk]

/-- `POST /vaults/:id/sources` errors are enveloped 400/500. -/
theorem envOk_postVaultSources (txFail : Option String) (fsOk : Bool)
    (hdr : Option String) (vid : Nat) (r : AddSourceReq)
    (s : ServerState) :
    errEnvelopeOk (postVaultSourcesEndpoint txFail fsOk hdr vid r s).1 := by
  have htx : ∀ (st tl ct : String) (mime : Option String)
      (sz : Option Nat) (u : AuthUser),
      errEnvelopeOk (addSourceTx txFail u vid st tl ct mime sz s).1 := by
    intro st tl ct mime sz u
    unfold addSourceTx
    repeat' (first | split | (dsimp only; split))
    all_goals simp [errEnvelopeOk, allowedErrStatuses]
  unfold postVaultSourcesEndpoint
  refine errEnvelopeOk_withAuth s hdr _ (fun u => ?_)
  refine errEnvelopeOk_withVaultRole _ vid u s _ (fun role => ?_)
  unfold postVaultSourcesHandler
  repeat' (first | split | (dsimp only; split))
  all_goals first
    | apply htx
    | simp [errEnvelopeOk, allowedErrStatuses]

/-- `POST /vaults/:id/members` errors are enveloped 400/404/409/500. -/
theorem envOk_postVaultMembers (txOk : Bool) (hdr : Option String)
    (vid : Nat) (email role : Option String) (s : ServerState) :
    errEnvelopeOk (postVaultMembersEndpoint txOk hdr vid email role s).1 := by
  unfold postVaultMembersEndpoint
  refine errEnvelopeOk_withAuth s hdr _ (fun u => ?_)
  refine errEnvelopeOk_withVaultRole _ vid u s _ (fun role' => ?_)
  unfold postVaultMembersHandler
  repeat' (first | split | (dsimp only; split))
  all_goals simp [errEnvelopeOk, allowedErrStatuses]

/-- `GET /vaults/:id/audit` errors are enveloped. -/
theorem envOk_getVaultAudit (hdr : Option String) (vid : Nat)
    (s : ServerState) :
    errEnvelopeOk (getVaultAuditEndpoint hdr vid s).1 := by
  unfold getVaultAuditEndpoint
  refine errEnvelopeOk_withAuth s hdr _ (fun u => ?_)
  exact errEnvelopeOk_withVaultRole _ vid u s _ (fun role => by
    simp [errEnvelopeOk])

/-- The `GET /sources/:id/download` route handler's own error bodies
carry no `success` field, only statuses from the allowed set. -/
theorem noSuccess_downloadHandler (u : AuthUser) (sid : Nat)
    (s : ServerState) :
    errNoSuccess (getSourceDownloadHandler u sid s).1 := by
  unfold getSourceDownloadHandler
  repeat' (first | split | (dsimp only; split))
  all_goals simp [errNoSuccess, allowedErrStatuses]

/-- `GET /sources/:id/download` error statuses stay in the allowed set
(the auth middleware's errors are enveloped; the handler's are not). -/
theorem statusOk_download (hdr : Option String) (sid : Nat)
    (s : ServerState) :
    errStatusOk (getSourceDownloadEndpoint hdr sid s).1 := by
  unfold getSourceDownloadEndpoint withAuth
  cases hauth : authenticate s hdr with
  | error e =>
    rcases authenticate_error s hdr e hauth with rfl | rfl <;>
      simp [errStatusOk, allowedErrStatuses]
  | ok u =>
    have hns := noSuccess_downloadHandler u sid s
    cases hr : (getSourceDownloadHandler u sid s).1 <;>
      rw [hr] at hns <;> simp_all [errNoSuccess, errStatusOk]

/-- C3 (amended): every error response the route handlers and the
auth/RBAC middleware produce carries a status from
{400, 401, 403, 404, 409, 500}, and its body carries `success: false` —
except the bodies the `GET /sources/:id/download` route handler itself
produces, which are `{error}` with no `success` field at all (its
authentication errors are still enveloped).  Beyond the route handlers,
the rate-limiting middleware answers over-limit requests 429 — a status
outside the set — with a `{success:false, error}` body and without
running the route, and the global error handler passes the erroring
middleware's own status through (500 when absent), also always with a
`{success:false, error}` body. -/
theorem error_envelope_amended :
    (∀ (hashFn : String → String) (sign : AuthUser → String)
      (email pw nm : Option String) (s : ServerState),
      errEnvelopeOk (postAuthRegister hashFn sign email pw nm s).1) ∧
    (∀ (check : String → String → Bool) (sign : AuthUser → String)
      (email pw : Option String) (s : ServerState),
      errEnvelopeOk (postAuthLogin check sign email pw s).1) ∧
    (∀ (hdr : Option String) (s : ServerState),
      errEnvelopeOk (getVaultsEndpoint hdr s).1) ∧
    (∀ (txOk : Bool) (hdr name : Option String) (s : ServerState),
      errEnvelopeOk (postVaultsEndpoint txOk hdr name s).1) ∧
    (∀ (hdr : Option String) (vid : Nat) (s : ServerState),
      errEnvelopeOk (getVaultSourcesEndpoint hdr vid s).1) ∧
    (∀ (txFail : Option String) (fsOk : Bool) (hdr : Option String)
      (vid : Nat) (r : AddSourceReq) (s : ServerState),
      errEnvelopeOk (postVaultSourcesEndpoint txFail fsOk hdr vid r s).1) ∧
    (∀ (txOk : Bool) (hdr : Option String) (vid : Nat)
      (email role : Option String) (s : ServerState),
      errEnvelopeOk (postVaultMembersEndpoint txOk hdr vid email role s).1) ∧
    (∀ (hdr : Option String) (vid : Nat) (s : ServerState),
      errEnvelopeOk (getVaultAuditEndpoint hdr vid s).1) ∧
    (∀ (hdr : Option String) (sid : Nat) (s : ServerState),
      errStatusOk (getSourceDownloadEndpoint hdr sid s).1) ∧
    (∀ (u : AuthUser) (sid : Nat) (s : ServerState),
      errNoSuccess (getSourceDownloadHandler u sid s).1) ∧
    (∀ (α : Type) (wc limit : Nat) (message : ErrR)
      (k : EndpointResult α) (s : ServerState),
      (limit ≤ wc →
        withRateLimit wc limit message k s = (.err message, s, [])) ∧
      (wc < limit → withRateLimit wc limit message k s = k)) ∧
    (tooManyRequests.status = 429 ∧ tooManyRequests.success = some false ∧
      tooManyAuthAttempts.status = 429 ∧
      tooManyAuthAttempts.success = some false) ∧
    (∀ (st : Option Nat) (msg : Option String), ∃ e,
      globalErrorHandler st msg = .err e ∧ e.success = some false ∧
      e.status = st.getD 500) :=
  ⟨envOk_register, envOk_login, envOk_getVaults, envOk_postVaults,
   envOk_getVaultSources, envOk_postVaultSources, envOk_postVaultMembers,
   envOk_getVaultAudit, statusOk_download, noSuccess_downloadHandler,
   fun α wc limit message k s =>
     ⟨fun h => by simp [withRateLimit, h],
      fun h => by simp [withRateLimit, Nat.not_le_of_lt h]⟩,
   ⟨rfl, rfl, rfl, rfl⟩,
   fun st msg => ⟨_, rfl, rfl, rfl⟩⟩

/-- Witness for the amended C3: a request arriving when the window
already holds 100 requests is answered the limiter's 429 envelope
without running the route, an under-limit request passes through to the
route, and a body-parser 413 goes through the global handler as an
enveloped 413. -/
theorem error_envelope_amended_witness :
    withRateLimit 100 generalLimiterMax tooManyRequests
        (getVaultsEndpoint hdrA s0) s0 =
      (.err tooManyRequests, s0, []) ∧
    withRateLimit 0 generalLimiterMax tooManyRequests
        (getVaultsEndpoint hdrA s0) s0 = getVaultsEndpoint hdrA s0 ∧
    (∃ e, globalErrorHandler (some 413) (some "request entity too large") =
      .err e ∧ e.success = some false ∧ e.status = (some 413).getD 500) :=
  ⟨(error_envelope_amended.2.2.2.2.2.2.2.2.2.2.1 CacheVal 100
      generalLimiterMax tooManyRequests (getVaultsEndpoint hdrA s0) s0).1
      (by decide),
   (error_envelope_amended.2.2.2.2.2.2.2.2.2.2.1 CacheVal 0
      generalLimiterMax tooManyRequests (getVaultsEndpoint hdrA s0) s0).2
      (by decide),
   error_envelope_amended.2.2.2.2.2.2.2.2.2.2.2.2 (some 413)
      (some "request entity too large")⟩

/-- Counterexample to C3 as stated, at three concrete inputs: Alice's
authenticated `GET /sources/999/download` for a nonexistent source is
answered 404 with `{error: 'Source not found'}` — no `success` field;
her `GET /vaults` arriving when the rate-limit window already holds 100
requests is answered 429, a status outside {400,401,403,404,409,500};
and an oversized JSON body is answered with the body parser's 413
through the global error handler, also outside the set. -/
theorem error_envelope_counterexample :
    ((getSourceDownloadEndpoint hdrA 999 s0).1 =
        .err ⟨404, none, "Source not found"⟩ ∧
      ¬ errEnvelopeOk (getSourceDownloadEndpoint hdrA 999 s0).1) ∧
    ((withRateLimit 100 generalLimiterMax tooManyRequests
          (getVaultsEndpoint hdrA s0) s0).1 = .err tooManyRequests ∧
      ¬ errStatusOk (withRateLimit 100 generalLimiterMax tooManyRequests
          (getVaultsEndpoint hdrA s0) s0).1) ∧
    (globalErrorHandler (some 413) (some "request entity too large") =
        .err ⟨413, some false, "request entity too large"⟩ ∧
      ¬ errStatusOk (globalErrorHandler (some 413)
          (some "request entity too large"))) := by
  have he : (getSourceDownloadEndpoint hdrA 999 s0).1 =
      .err ⟨404, none, "Source not found"⟩ := by decide
  have hrl : (withRateLimit 100 generalLimiterMax tooManyRequests
      (getVaultsEndpoint hdrA s0) s0).1 = .err tooManyRequests := by decide
  refine ⟨⟨he, ?_⟩, ⟨hrl, ?_⟩, ⟨rfl, ?_⟩⟩
  · rw [he]
    simp [errEnvelopeOk]
  · rw [hrl]
    simp [errStatusOk, tooManyRequests, allowedErrStatuses]
  · simp [globalErrorHandler, errStatusOk, allowedErrStatuses]

end SyncScript
